import Mathlib

/-!
Shallow embedding of the twitch-autorecorder supervisor script
(`main.ts`): a polling loop that probes a channel's liveness via
`streamlink`, records live streams via `ffmpeg`, writes watch/download
logs, prunes old log files, honors an exit-signal file, and notifies a
Discord webhook on state changes and credential failures.

External processes (streamlink / ffmpeg), the filesystem and the clock
are modelled as explicit inputs to each cycle; the script's control flow
is transcribed into pure functions producing event traces.
-/

namespace TwitchAutoRecorder

/-! ## String utilities

JS `String.prototype.includes` is substring containment; we implement it
over `List Char`. -/

/-- `isPrefixOfL pat l`: `pat` is a prefix of `l` (char lists). -/
def isPrefixOfL : List Char → List Char → Bool
  | [], _ => true
  | _ :: _, [] => false
  | a :: as, b :: bs => a == b && isPrefixOfL as bs

/-- `hasSubstrL pat l`: `pat` occurs as a contiguous substring of `l`. -/
def hasSubstrL (pat : List Char) : List Char → Bool
  | [] => isPrefixOfL pat []
  | c :: cs => isPrefixOfL pat (c :: cs) || hasSubstrL pat cs

/-- JS `s.includes(pat)`. -/
def containsSubstr (s pat : String) : Bool :=
  hasSubstrL pat.data s.data

/-- The whitespace JS `String.prototype.trim` strips (the code points
streamlink output exercises: space, tab, CR, LF, FF, VT). -/
def isJsWhitespace (c : Char) : Bool :=
  c == ' ' || c == '\t' || c == '\n' || c == '\r' ||
    c == '\x0c' || c == '\x0b'

/-- JS `s.trim()`: strip leading and trailing whitespace. -/
def jsTrim (s : String) : String :=
  ⟨((s.data.dropWhile isJsWhitespace).reverse.dropWhile isJsWhitespace).reverse⟩

/-- Model of `path.join(a, b)` for plain relative components
(no `.`/`..`/separator normalization is exercised by the script's
arguments except `'./exit'`, which normalizes to `exit`). -/
def pathJoin (a b : String) : String := a ++ "/" ++ b

/-! ## Clock / time formatting (source: `pad`, `getDate`, `getDateTime`,
`getDateTimeShort`, `getLogTimestamp`) -/

/-- A wall-clock instant as the JS `Date` accessors deliver it
(`getMonth() + 1` is already applied, matching the source's use). -/
structure DateTime where
  year : Nat
  month : Nat
  day : Nat
  hour : Nat
  minute : Nat
  second : Nat
deriving DecidableEq, Repr

/-- `pad(n)`: `n.toString().padStart(2, '0')`. -/
def pad (n : Nat) : String :=
  if n < 10 then "0" ++ toString n else toString n

/-- `getDate()`: `YYYYMMDD`. -/
def getDate (d : DateTime) : String :=
  toString d.year ++ pad d.month ++ pad d.day

/-- `getDateTime()`: `YYYYMMDD_HHMM_SS` — note the underscore between
minutes and seconds in the source's template literal. -/
def getDateTime (d : DateTime) : String :=
  toString d.year ++ pad d.month ++ pad d.day ++ "_" ++
    pad d.hour ++ pad d.minute ++ "_" ++ pad d.second

/-- `getDateTimeShort()`: `YYYYMMDD_HHMM`. -/
def getDateTimeShort (d : DateTime) : String :=
  toString d.year ++ pad d.month ++ pad d.day ++ "_" ++
    pad d.hour ++ pad d.minute

/-- `getLogTimestamp()`: `YYYY/MM/DD HH:MM:SS`. -/
def getLogTimestamp (d : DateTime) : String :=
  toString d.year ++ "/" ++ pad d.month ++ "/" ++ pad d.day ++ " " ++
    pad d.hour ++ ":" ++ pad d.minute ++ ":" ++ pad d.second

/-! ## Configuration (module-level constants of the script) -/

/-- Environment-derived constants: `__dirname`, `VIDEO_DIR`, `USER_NAME`
(argv), `TWITCH_AUTH_TOKEN` (absent or empty env var ↦ `none`, matching
JS falsiness of `''`), `DISCORD_WEBHOOK_URL`, `INTERVAL`. -/
structure Config where
  baseDir : String
  videoDir : String
  userName : String
  authToken : Option String
  webhookUrl : Option String
  interval : Nat
deriving Repr

/-- `LOGDIR = path.join(__dirname, 'logs')`. -/
def logDirOf (cfg : Config) : String := pathJoin cfg.baseDir "logs"

/-- `EXIT_FILE = path.join(__dirname, './exit')` (normalizes to
`<base>/exit`). -/
def exitFileOf (cfg : Config) : String := pathJoin cfg.baseDir "exit"

/-! ## Liveness prober (source: `getAndRecordProcessAsync` lines 162-183,
`buildStreamlinkCmd`) -/

/-- Result of the `streamlink` invocation: `execAsync` resolves on exit
code 0 with `{stdout, stderr}` and rejects otherwise with the same
outputs attached to the error object. -/
structure ExecResult where
  exitCode : Nat
  stdout : String
  stderr : String
deriving Repr

/-- The exact marker the source searches for in both the resolved and
the rejected paths: `'error: Unauthorized'`. -/
def unauthorizedMarker : String := "error: Unauthorized"

/-- The source's credential check, applied identically in the zero-exit
path (`stdout.includes(...) || stderr.includes(...)`) and the nonzero
path (`err.stdout... || err.stderr...`). -/
def hasUnauthorized (out err : String) : Bool :=
  containsSubstr out unauthorizedMarker || containsSubstr err unauthorizedMarker

/-- Probe outcomes as the spec names them, plus the code's fourth path:
zero exit with empty trimmed stdout falls through `if (url)` silently. -/
inductive ProbeOutcome where
  | credentialInvalid
  | offline
  | live (url : String)
  | silent
deriving DecidableEq, Repr

/-- Classification of a probe, transcribed from the try/catch in
`getAndRecordProcessAsync`: the unauthorized marker dominates both
paths; a rejected exec without it is offline; a resolved exec yields
`stdout.trim()` which starts a capture only when non-empty. -/
def classifyProbe (r : ExecResult) : ProbeOutcome :=
  if r.exitCode = 0 then
    if hasUnauthorized r.stdout r.stderr then .credentialInvalid
    else if jsTrim r.stdout = "" then .silent
    else .live (jsTrim r.stdout)
  else
    if hasUnauthorized r.stdout r.stderr then .credentialInvalid
    else .offline

/-! ## Log manager (source: `formatLogLine`, `getLogFilePath`, `writeLog`,
`cleanOldLogs`) -/

/-- The two log kinds of the script. -/
inductive LogType where
  | watch
  | download
deriving DecidableEq, Repr

/-- `AUTH_TOKEN ? '(auth: yes)' : '(auth: no)'`. -/
def tokenStatusOf (cfg : Config) : String :=
  if cfg.authToken.isSome then "(auth: yes)" else "(auth: no)"

/-- `formatLogLine(msg, tokenStatus)`; the current wall clock enters via
`getLogTimestamp()`. -/
def formatLogLine (d : DateTime) (msg tokenStatus : String) : String :=
  "[INFO] " ++ getLogTimestamp d ++ " " ++ tokenStatus ++ ": " ++ msg

/-- `getLogFilePath(type)`. -/
def getLogFilePath (cfg : Config) (d : DateTime) : LogType → String
  | .watch =>
      pathJoin (logDirOf cfg) (cfg.userName ++ "_watch_" ++ getDate d ++ ".log")
  | .download =>
      pathJoin (logDirOf cfg) (cfg.userName ++ "_download_" ++ getDateTimeShort d ++ ".log")

/-- What one `writeLog(type, msg)` call emits: the file line appended to
the resolved path, and the console line winston prints
(`[INFO] <ts>: <tokenStatus>: <msg>`). -/
structure LogEffect where
  filePath : String
  fileLine : String
  consoleLine : String
deriving Repr

/-- `writeLog(type, msg)`, transcribed. -/
def writeLog (cfg : Config) (d : DateTime) (ty : LogType) (msg : String) : LogEffect :=
  let tokenStatus := tokenStatusOf cfg
  { filePath := getLogFilePath cfg d ty
    fileLine := formatLogLine d msg tokenStatus
    consoleLine := "[INFO] " ++ getLogTimestamp d ++ ": " ++ tokenStatus ++ ": " ++ msg }

/-- A filesystem as the append path sees it: the set of existing
directories and a file store keyed by path (`none` = file absent). The
script itself never creates a directory — no `mkdir` call exists in the
source — so `dirs` only changes outside the model. -/
structure FileSys where
  dirs : List String
  files : String → Option (List String)

/-- The directory component of a path: everything before the last
separator (what Node resolves as the parent of the append target). -/
def parentDir (p : String) : String :=
  ⟨((p.data.reverse.dropWhile (fun c => c != '/')).drop 1).reverse⟩

/-- `fs.appendFileSync(p, line + '\n')`: appends one line to `p`,
creating the file when absent — but when the parent directory does not
exist it throws ENOENT instead of creating it. -/
def appendFileSync (fsys : FileSys) (p line : String) : Except String FileSys :=
  if fsys.dirs.contains (parentDir p) then
    Except.ok
      { dirs := fsys.dirs
        files := fun q =>
          if q = p then some ((fsys.files p).getD [] ++ [line]) else fsys.files q }
  else
    Except.error "ENOENT"

/-- A directory listing entry as `cleanOldLogs` sees it; `statFails`
models `fs.statSync`/`fs.unlinkSync` throwing for that file. -/
structure DirEntry where
  name : String
  mtimeMs : Nat
  statFails : Bool
deriving DecidableEq, Repr

/-- `(now - stat.mtimeMs) / (1000 * 60 * 60 * 24) > 3` over the reals is
equivalent to this millisecond comparison. -/
def retentionMs : Nat := 3 * (1000 * 60 * 60 * 24)

/-- `cleanOldLogs()`, transcribed from the `forEach`: returns the
surviving entries, the unlinked paths, and the per-file warnings.
A failing stat/delete yields one warning and leaves the file in place;
the iteration continues regardless. -/
def cleanOldLogs (logDir : String) (now : Nat) :
    List DirEntry → List DirEntry × List String × List String
  | [] => ([], [], [])
  | e :: es =>
    let (rem, del, warns) := cleanOldLogs logDir now es
    if e.statFails then
      (e :: rem, del,
        ("[WARN] Failed to stat or delete log file: " ++ pathJoin logDir e.name) :: warns)
    else if now - e.mtimeMs > retentionMs then
      (rem, pathJoin logDir e.name :: del, warns)
    else
      (e :: rem, del, warns)

/-! ## Supervisor cycle (source: `getAndRecordProcessAsync`, `main`) -/

/-- Observable steps of one supervisor iteration, in program order. -/
inductive Event where
  | prune
  | probe
  | watchLog (msg : String)
  | notify (msg : String)
  | consoleError (msg : String)
  | captureStart (url outFile : String)
  | captureEnd (code : Nat)
  | sleep
deriving DecidableEq, Repr

/-- The world one iteration interacts with: whether `EXIT_FILE` exists
at the top-of-cycle check, the streamlink invocation's result, the
ffmpeg exit code (used only when a capture starts), and the wall clock
at capture start. -/
structure CycleInput where
  exitFilePresent : Bool
  probe : ExecResult
  captureExit : Nat
  now : DateTime
deriving Repr

/-- `discord.msg` sends exactly one message when a webhook is
configured and is a no-op otherwise. -/
def notifyEvents (cfg : Config) (msg : String) : List Event :=
  match cfg.webhookUrl with
  | none => []
  | some _ => [.notify msg]

def credentialErrMsg : String :=
  "Twitch OAuth token is invalid. Please check your .env."

/-- The watch-log message of the ffmpeg `close` handler. -/
def outcomeMsg (code : Nat) : String :=
  if code = 0 then "Download completed."
  else "Download failed with exit code " ++ toString code ++ "."

/-- `path.join(VIDEO_DIR, `USER_NAME_datetime.mp4`)`. -/
def videoOutFile (cfg : Config) (d : DateTime) : String :=
  pathJoin cfg.videoDir (cfg.userName ++ "_" ++ getDateTime d ++ ".mp4")

/-- Whether one iteration terminates the whole process. -/
inductive CycleResult where
  | exited (code : Nat)
  | continued
deriving DecidableEq, Repr

/-- `getAndRecordProcessAsync()`, transcribed: prune, exit-file check,
probe; the unauthorized marker forces notify + console error + exit 1
in both the resolved and the rejected exec paths; a rejected exec logs
offline; a resolved exec with non-empty trimmed stdout logs, notifies,
spawns ffmpeg, awaits its close, and logs the outcome. -/
def runCycle (cfg : Config) (inp : CycleInput) : List Event × CycleResult :=
  if inp.exitFilePresent then
    ([.prune, .watchLog "Exit file detected, aborting."], .exited 0)
  else if inp.probe.exitCode = 0 then
    if hasUnauthorized inp.probe.stdout inp.probe.stderr then
      ([.prune, .probe] ++ notifyEvents cfg credentialErrMsg
        ++ [.consoleError credentialErrMsg], .exited 1)
    else
      let url := jsTrim inp.probe.stdout
      if url = "" then
        ([.prune, .probe], .continued)
      else
        ([.prune, .probe,
            .watchLog (cfg.userName ++ " is online! Starting download...")]
          ++ notifyEvents cfg (cfg.userName ++ " is online! Starting download...")
          ++ [.captureStart url (videoOutFile cfg inp.now),
              .captureEnd inp.captureExit,
              .watchLog (outcomeMsg inp.captureExit)], .continued)
  else
    if hasUnauthorized inp.probe.stdout inp.probe.stderr then
      ([.prune, .probe] ++ notifyEvents cfg credentialErrMsg
        ++ [.consoleError credentialErrMsg], .exited 1)
    else
      ([.prune, .probe, .watchLog (cfg.userName ++ " is offline.")], .continued)

/-- `main()`: run one cycle; if it did not exit the process, sleep
`INTERVAL` seconds and repeat. The input list supplies the successive
world states; an empty remainder means the run is still going
(`none`). -/
def runLoop (cfg : Config) : List CycleInput → List Event × Option Nat
  | [] => ([], none)
  | inp :: rest =>
    match runCycle cfg inp with
    | (evs, .exited c) => (evs, some c)
    | (evs, .continued) =>
      (evs ++ Event.sleep :: (runLoop cfg rest).1, (runLoop cfg rest).2)

/-! ## Startup (source: module top `USER_NAME`/`AUTH_TOKEN` checks,
`checkCommandExists`, the two tool checks before `main()`) -/

/-- The world at module evaluation: `process.argv[2]`, which external
commands `which` resolves, and the credential env var. -/
structure StartupEnv where
  argChannel : Option String
  streamlinkInstalled : Bool
  ffmpegInstalled : Bool
  authToken : Option String
deriving Repr

/-- Whether startup reaches `main()` (carrying any console warnings) or
exits first with a code and a console error message. -/
inductive StartupResult where
  | exitWith (code : Nat) (errMsg : String)
  | proceed (warnings : List String)
deriving DecidableEq, Repr

def usageMsg : String :=
  "No username provided. Usage: node main.js <twitch_username>"

def tokenWarnMsg : String :=
  "TWITCH_AUTH_TOKEN is not set in `.env`. You may get ads screen in your recordings."

/-- Module-evaluation order of the script: missing argv[2] exits 1 with
the usage message; a missing auth token only appends a warning; then
`checkCommandExists('streamlink')` and `checkCommandExists('ffmpeg')`
each exit 1 when the tool is absent; otherwise `main()` is entered. -/
def startup (env : StartupEnv) : StartupResult :=
  match env.argChannel with
  | none => .exitWith 1 usageMsg
  | some _ =>
    let warns := if env.authToken.isSome then [] else [tokenWarnMsg]
    if !env.streamlinkInstalled then
      .exitWith 1 "streamlink is not installed or not in PATH."
    else if !env.ffmpegInstalled then
      .exitWith 1 "ffmpeg is not installed or not in PATH."
    else
      .proceed warns

/-- The whole program: startup checks, then the polling loop. A startup
exit produces no loop events. -/
def runProgram (env : StartupEnv) (cfg : Config) (inputs : List CycleInput) :
    List Event × Option Nat :=
  match startup env with
  | .exitWith c _ => ([], some c)
  | .proceed _ => runLoop cfg inputs

/-! ## Trace observations -/

def isNotifyEv : Event → Bool
  | .notify _ => true
  | _ => false

def isCaptureStartEv : Event → Bool
  | .captureStart _ _ => true
  | _ => false

def isProbeEv : Event → Bool
  | .probe => true
  | _ => false

def isWatchLogEv : Event → Bool
  | .watchLog _ => true
  | _ => false

/-- Number of events satisfying `p` in a trace. -/
def countEv (p : Event → Bool) (l : List Event) : Nat :=
  (l.filter p).length

/-- Every `captureStart` is immediately followed by its `captureEnd`,
and no `captureEnd` occurs elsewhere: captures never overlap anything,
in particular no probe or second capture happens while one is in
flight. -/
def captureBalanced : List Event → Bool
  | [] => true
  | .captureStart _ _ :: .captureEnd _ :: rest => captureBalanced rest
  | .captureStart _ _ :: _ => false
  | .captureEnd _ :: _ => false
  | _ :: rest => captureBalanced rest

/-! ## Chronology of capture-start instants -/

/-- Field-lexicographic "strictly earlier" on wall-clock instants: the
order in which a monotone clock delivers successive capture starts. -/
def chronoLt (d1 d2 : DateTime) : Prop :=
  d1.year < d2.year ∨ (d1.year = d2.year ∧
    (d1.month < d2.month ∨ (d1.month = d2.month ∧
      (d1.day < d2.day ∨ (d1.day = d2.day ∧
        (d1.hour < d2.hour ∨ (d1.hour = d2.hour ∧
          (d1.minute < d2.minute ∨ (d1.minute = d2.minute ∧
            d1.second < d2.second)))))))))

/-- Field bounds a real `Date` always satisfies. -/
def validClock (d : DateTime) : Prop :=
  d.month ≤ 12 ∧ d.day ≤ 31 ∧ d.hour ≤ 23 ∧ d.minute ≤ 59 ∧ d.second ≤ 59

/-- The numeric timestamp embedded (per-field, two digits each beyond
the year) in `getDateTime`'s output. -/
def dateTimeKey (d : DateTime) : Nat :=
  ((((d.year * 100 + d.month) * 100 + d.day) * 100 + d.hour) * 100 +
    d.minute) * 100 + d.second

/-! ## Sample worlds used to exercise the model on concrete inputs -/

/-- A configuration with credential and webhook present. -/
def sampleCfg : Config :=
  { baseDir := "/app", videoDir := "/videos", userName := "chan",
    authToken := some "tok", webhookUrl := some "hook", interval := 55 }

/-- A configuration with neither credential nor webhook. -/
def sampleCfgBare : Config :=
  { baseDir := "/app", videoDir := "/videos", userName := "chan",
    authToken := none, webhookUrl := none, interval := 55 }

/-- A concrete wall-clock instant. -/
def sampleTime : DateTime :=
  { year := 2024, month := 1, day := 2, hour := 3, minute := 4, second := 5 }

/-- A later concrete instant. -/
def sampleTime2 : DateTime :=
  { year := 2024, month := 1, day := 2, hour := 3, minute := 5, second := 1 }

/-- A probe whose output carries the source's unauthorized marker. -/
def sampleProbeUnauthorized : ExecResult :=
  { exitCode := 0, stdout := "", stderr := "streamlink: error: Unauthorized" }

/-- A live probe: exit 0 and a URL on stdout. -/
def sampleProbeLive : ExecResult :=
  { exitCode := 0, stdout := "https://example/stream\n", stderr := "" }

/-- An offline probe: nonzero exit, no marker. -/
def sampleProbeOffline : ExecResult :=
  { exitCode := 1, stdout := "", stderr := "error: No playable streams found" }

/-- A silent probe: exit 0 with whitespace-only stdout. -/
def sampleProbeSilent : ExecResult :=
  { exitCode := 0, stdout := " ", stderr := "" }

/-! ## Helper lemmas -/

theorem isPrefixOfL_append_self (pat ys : List Char) :
    isPrefixOfL pat (pat ++ ys) = true := by
  induction pat with
  | nil => simp [isPrefixOfL]
  | cons a as ih => simp [isPrefixOfL, ih]

theorem hasSubstrL_self_append (pat ys : List Char) :
    hasSubstrL pat (pat ++ ys) = true := by
  cases pat with
  | nil => cases ys <;> simp [hasSubstrL, isPrefixOfL]
  | cons p ps =>
    simp only [List.cons_append, hasSubstrL, Bool.or_eq_true]
    exact Or.inl (isPrefixOfL_append_self (p :: ps) ys)

theorem hasSubstrL_append_left (xs pat ys : List Char)
    (h : hasSubstrL pat ys = true) : hasSubstrL pat (xs ++ ys) = true := by
  induction xs with
  | nil => simpa using h
  | cons x xs ih =>
    simp only [List.cons_append, hasSubstrL, Bool.or_eq_true]
    exact Or.inr ih

/-- A string contains any middle chunk of itself. -/
theorem containsSubstr_middle (a b c : String) :
    containsSubstr (a ++ b ++ c) b = true := by
  have hd : (a ++ b ++ c).data = a.data ++ (b.data ++ c.data) := by
    simp [String.data_append]
  simp only [containsSubstr, hd]
  exact hasSubstrL_append_left _ _ _ (hasSubstrL_self_append _ _)

/-- A string contains anything its suffix contains. -/
theorem containsSubstr_append_right (a b pat : String)
    (h : containsSubstr b pat = true) : containsSubstr (a ++ b) pat = true := by
  simp only [containsSubstr, String.data_append]
  exact hasSubstrL_append_left _ _ _ h

/-- Paths under the log directory never collide with the exit file. -/
theorem logDir_path_ne_exitFile (cfg : Config) (name : String) :
    pathJoin (logDirOf cfg) name ≠ exitFileOf cfg := by
  intro h
  have hl := congrArg String.length h
  simp [pathJoin, logDirOf, exitFileOf, String.length_append] at hl
  have h1 : "logs".length = 4 := rfl
  have h2 : "/".length = 1 := rfl
  have h3 : "exit".length = 4 := rfl
  omega

theorem captureBalanced_append (xs ys : List Event)
    (h1 : captureBalanced xs = true) (h2 : captureBalanced ys = true) :
    captureBalanced (xs ++ ys) = true := by
  induction xs using captureBalanced.induct <;> simp_all [captureBalanced]

theorem captureBalanced_cycle (cfg : Config) (inp : CycleInput) :
    captureBalanced (runCycle cfg inp).1 = true := by
  rcases hw : cfg.webhookUrl with _ | w <;>
    by_cases h1 : inp.exitFilePresent <;>
    by_cases h2 : inp.probe.exitCode = 0 <;>
    by_cases h3 : hasUnauthorized inp.probe.stdout inp.probe.stderr = true <;>
    by_cases h4 : jsTrim inp.probe.stdout = "" <;>
    simp [runCycle, notifyEvents, hw, h1, h2, h3, h4, captureBalanced]

/-- `cleanOldLogs` is a per-entry filter: the survivors, the unlinked
paths and the warnings are each pointwise functions of the input list,
so no entry's outcome depends on any other entry. -/
theorem cleanOldLogs_eq (logDir : String) (now : Nat) (entries : List DirEntry) :
    cleanOldLogs logDir now entries =
      (entries.filter (fun e => e.statFails || !(decide (now - e.mtimeMs > retentionMs))),
       (entries.filter (fun e => !e.statFails && decide (now - e.mtimeMs > retentionMs))).map
         (fun e => pathJoin logDir e.name),
       (entries.filter (fun e => e.statFails)).map
         (fun e => "[WARN] Failed to stat or delete log file: " ++ pathJoin logDir e.name)) := by
  induction entries with
  | nil => simp [cleanOldLogs]
  | cons e es ih =>
    simp only [cleanOldLogs, ih, List.filter_cons]
    by_cases hs : e.statFails = true
    · simp [hs]
    · have hs' : e.statFails = false := by simpa using hs
      by_cases hm : now - e.mtimeMs > retentionMs
      · simp [hs', hm]
      · simp [hs', hm]

/-- Chronological order of valid instants strictly increases the numeric
timestamp key embedded in capture file names. -/
theorem dateTimeKey_strictMono (d1 d2 : DateTime)
    (h1 : validClock d1) (h2 : validClock d2) (hlt : chronoLt d1 d2) :
    dateTimeKey d1 < dateTimeKey d2 := by
  obtain ⟨m1, dy1, h1h, mi1, s1⟩ := h1
  obtain ⟨m2, dy2, h2h, mi2, s2⟩ := h2
  unfold dateTimeKey
  rcases hlt with h | ⟨e1, h⟩
  · nlinarith [d1.month, d2.month]
  · rcases h with h | ⟨e2, h⟩
    · rw [e1]; nlinarith
    · rcases h with h | ⟨e3, h⟩
      · rw [e1, e2]; nlinarith
      · rcases h with h | ⟨e4, h⟩
        · rw [e1, e2, e3]; nlinarith
        · rcases h with h | ⟨e5, h⟩
          · rw [e1, e2, e3, e4]; nlinarith
          · rw [e1, e2, e3, e4, e5]; omega

theorem captureBalanced_loop (cfg : Config) (inputs : List CycleInput) :
    captureBalanced (runLoop cfg inputs).1 = true := by
  induction inputs with
  | nil => simp [runLoop, captureBalanced]
  | cons inp rest ih =>
    rcases hc : runCycle cfg inp with ⟨evs, res⟩
    have hb : captureBalanced evs = true := by
      have h := captureBalanced_cycle cfg inp
      rw [hc] at h
      exact h
    cases res with
    | exited c => simp [runLoop, hc, hb]
    | continued =>
      simp only [runLoop, hc]
      refine captureBalanced_append _ _ hb ?_
      have hs : captureBalanced (Event.sleep :: (runLoop cfg rest).1) =
          captureBalanced (runLoop cfg rest).1 := by
        simp [captureBalanced]
      rw [hs]
      exact ih

/-! ## Claims -/

/-- C3: in every reachable supervisor trace at most one capture session
is in flight: each `captureStart` is immediately followed by the
matching `captureEnd` (carrying the capture's exit code) before any
further logging, sleeping or probing event, so no two Probing or
Capturing phases ever overlap. -/
theorem claim_C3 (cfg : Config) (inputs : List CycleInput) :
    captureBalanced (runLoop cfg inputs).1 = true :=
  captureBalanced_loop cfg inputs

/-- C1: whenever a probe's combined stdout/stderr carries the source's
unauthorized marker, the run terminates with exit code 1 regardless of
the tool's raw exit status, emits exactly one notification when a
webhook is configured (none otherwise), performs no capture, and never
probes again. -/
theorem claim_C1 (cfg : Config) (inp : CycleInput) (rest : List CycleInput)
    (hexit : inp.exitFilePresent = false)
    (hunauth : hasUnauthorized inp.probe.stdout inp.probe.stderr = true) :
    (runCycle cfg inp).2 = CycleResult.exited 1 ∧
    runLoop cfg (inp :: rest) = ((runCycle cfg inp).1, some 1) ∧
    countEv isNotifyEv (runCycle cfg inp).1 =
      (if cfg.webhookUrl.isSome then 1 else 0) ∧
    countEv isProbeEv (runLoop cfg (inp :: rest)).1 = 1 ∧
    countEv isCaptureStartEv (runLoop cfg (inp :: rest)).1 = 0 := by
  rcases hw : cfg.webhookUrl with _ | w <;>
    by_cases h2 : inp.probe.exitCode = 0 <;>
    simp [runCycle, runLoop, hexit, hunauth, h2, hw, notifyEvents,
      countEv, isNotifyEv, isProbeEv, isCaptureStartEv]

/-- Witness for C1 at a concrete unauthorized probe. -/
theorem claim_C1_witness :
    (runCycle sampleCfg
        { exitFilePresent := false, probe := sampleProbeUnauthorized,
          captureExit := 0, now := sampleTime }).2 = CycleResult.exited 1 ∧
    runLoop sampleCfg
        [{ exitFilePresent := false, probe := sampleProbeUnauthorized,
           captureExit := 0, now := sampleTime }] =
      ((runCycle sampleCfg
          { exitFilePresent := false, probe := sampleProbeUnauthorized,
            captureExit := 0, now := sampleTime }).1, some 1) ∧
    countEv isNotifyEv (runCycle sampleCfg
        { exitFilePresent := false, probe := sampleProbeUnauthorized,
          captureExit := 0, now := sampleTime }).1 =
      (if sampleCfg.webhookUrl.isSome then 1 else 0) ∧
    countEv isProbeEv (runLoop sampleCfg
        [{ exitFilePresent := false, probe := sampleProbeUnauthorized,
           captureExit := 0, now := sampleTime }]).1 = 1 ∧
    countEv isCaptureStartEv (runLoop sampleCfg
        [{ exitFilePresent := false, probe := sampleProbeUnauthorized,
           captureExit := 0, now := sampleTime }]).1 = 0 :=
  claim_C1 sampleCfg
    { exitFilePresent := false, probe := sampleProbeUnauthorized,
      captureExit := 0, now := sampleTime } [] rfl (by decide)

/-- C10: a probe with exit 0 but empty trimmed stdout yields a silent
cycle: no watch-log line, no notification, no capture; the loop goes
straight to sleeping and to the next cycle. -/
theorem claim_C10 (cfg : Config) (inp : CycleInput) (rest : List CycleInput)
    (hexit : inp.exitFilePresent = false)
    (hec : inp.probe.exitCode = 0)
    (hunauth : hasUnauthorized inp.probe.stdout inp.probe.stderr = false)
    (hemp : jsTrim inp.probe.stdout = "") :
    runCycle cfg inp = ([Event.prune, Event.probe], CycleResult.continued) ∧
    countEv isWatchLogEv (runCycle cfg inp).1 = 0 ∧
    countEv isCaptureStartEv (runCycle cfg inp).1 = 0 ∧
    countEv isNotifyEv (runCycle cfg inp).1 = 0 ∧
    runLoop cfg (inp :: rest) =
      (Event.prune :: Event.probe :: Event.sleep :: (runLoop cfg rest).1,
       (runLoop cfg rest).2) ∧
    classifyProbe inp.probe = ProbeOutcome.silent := by
  have hcy : runCycle cfg inp = ([Event.prune, Event.probe], CycleResult.continued) := by
    simp [runCycle, hexit, hec, hunauth, hemp]
  refine ⟨hcy, ?_, ?_, ?_, ?_, ?_⟩
  · simp [hcy, countEv, isWatchLogEv]
  · simp [hcy, countEv, isCaptureStartEv]
  · simp [hcy, countEv, isNotifyEv]
  · simp [runLoop, hcy]
  · simp [classifyProbe, hec, hunauth, hemp]

/-- Witness for C10 at a whitespace-only probe output. -/
theorem claim_C10_witness :
    runCycle sampleCfgBare
        { exitFilePresent := false, probe := sampleProbeSilent,
          captureExit := 0, now := sampleTime } =
      ([Event.prune, Event.probe], CycleResult.continued) ∧
    countEv isWatchLogEv (runCycle sampleCfgBare
        { exitFilePresent := false, probe := sampleProbeSilent,
          captureExit := 0, now := sampleTime }).1 = 0 ∧
    countEv isCaptureStartEv (runCycle sampleCfgBare
        { exitFilePresent := false, probe := sampleProbeSilent,
          captureExit := 0, now := sampleTime }).1 = 0 ∧
    countEv isNotifyEv (runCycle sampleCfgBare
        { exitFilePresent := false, probe := sampleProbeSilent,
          captureExit := 0, now := sampleTime }).1 = 0 ∧
    runLoop sampleCfgBare
        [{ exitFilePresent := false, probe := sampleProbeSilent,
           captureExit := 0, now := sampleTime }] =
      (Event.prune :: Event.probe :: Event.sleep :: (runLoop sampleCfgBare []).1,
       (runLoop sampleCfgBare []).2) ∧
    classifyProbe sampleProbeSilent = ProbeOutcome.silent :=
  claim_C10 sampleCfgBare
    { exitFilePresent := false, probe := sampleProbeSilent,
      captureExit := 0, now := sampleTime } [] rfl rfl (by decide) (by decide)

/-- C8: a capture that terminates with exit code 0 makes the watch log
gain a completion line; one that terminates with `N ≠ 0` makes it gain a
line containing `N`; the cycle starts exactly one capture (no retry) and
the loop proceeds to the next cycle's fresh probe. -/
theorem claim_C8 (cfg : Config) (inp : CycleInput) (rest : List CycleInput)
    (d : DateTime)
    (hexit : inp.exitFilePresent = false)
    (hec : inp.probe.exitCode = 0)
    (hunauth : hasUnauthorized inp.probe.stdout inp.probe.stderr = false)
    (hne : jsTrim inp.probe.stdout ≠ "") :
    (runCycle cfg inp).1 =
      [Event.prune, Event.probe,
          Event.watchLog (cfg.userName ++ " is online! Starting download...")]
        ++ notifyEvents cfg (cfg.userName ++ " is online! Starting download...")
        ++ [Event.captureStart (jsTrim inp.probe.stdout) (videoOutFile cfg inp.now),
            Event.captureEnd inp.captureExit,
            Event.watchLog (outcomeMsg inp.captureExit)] ∧
    (runCycle cfg inp).2 = CycleResult.continued ∧
    (inp.captureExit = 0 → outcomeMsg inp.captureExit = "Download completed.") ∧
    containsSubstr (outcomeMsg 0) "complete" = true ∧
    (inp.captureExit ≠ 0 →
      containsSubstr (outcomeMsg inp.captureExit) (toString inp.captureExit) = true ∧
      containsSubstr (writeLog cfg d LogType.watch (outcomeMsg inp.captureExit)).fileLine
        (toString inp.captureExit) = true) ∧
    countEv isCaptureStartEv (runCycle cfg inp).1 = 1 ∧
    runLoop cfg (inp :: rest) =
      ((runCycle cfg inp).1 ++ Event.sleep :: (runLoop cfg rest).1,
       (runLoop cfg rest).2) := by
  have hcy : runCycle cfg inp =
      ([Event.prune, Event.probe,
          Event.watchLog (cfg.userName ++ " is online! Starting download...")]
        ++ notifyEvents cfg (cfg.userName ++ " is online! Starting download...")
        ++ [Event.captureStart (jsTrim inp.probe.stdout) (videoOutFile cfg inp.now),
            Event.captureEnd inp.captureExit,
            Event.watchLog (outcomeMsg inp.captureExit)], CycleResult.continued) := by
    simp [runCycle, hexit, hec, hunauth, hne]
  refine ⟨by rw [hcy], by rw [hcy], ?_, by decide, ?_, ?_, ?_⟩
  · intro h0
    simp [outcomeMsg, h0]
  · intro hc
    have hmsg : containsSubstr (outcomeMsg inp.captureExit)
        (toString inp.captureExit) = true := by
      rw [outcomeMsg, if_neg hc]
      exact containsSubstr_middle _ _ _
    refine ⟨hmsg, ?_⟩
    show containsSubstr
      (("[INFO] " ++ getLogTimestamp d ++ " " ++ tokenStatusOf cfg ++ ": ")
        ++ outcomeMsg inp.captureExit) (toString inp.captureExit) = true
    exact containsSubstr_append_right _ _ _ hmsg
  · rcases hw : cfg.webhookUrl with _ | w <;>
      simp [hcy, countEv, isCaptureStartEv, notifyEvents, hw]
  · simp [runLoop, hcy]

/-- Witness for C8: a live probe whose capture fails with exit code 7. -/
theorem claim_C8_witness :
    (7 : Nat) ≠ 0 ∧
    containsSubstr (outcomeMsg 7) (toString 7) = true ∧
    containsSubstr
      (writeLog sampleCfg sampleTime LogType.watch (outcomeMsg 7)).fileLine
      (toString 7) = true ∧
    countEv isCaptureStartEv (runCycle sampleCfg
        { exitFilePresent := false, probe := sampleProbeLive,
          captureExit := 7, now := sampleTime }).1 = 1 := by
  have h := claim_C8 sampleCfg
    { exitFilePresent := false, probe := sampleProbeLive,
      captureExit := 7, now := sampleTime } [] sampleTime
    rfl rfl (by decide) (by decide)
  have h7 : (7 : Nat) ≠ 0 := by decide
  exact ⟨h7, (h.2.2.2.2.1 h7).1, (h.2.2.2.2.1 h7).2, h.2.2.2.2.2.1⟩

/-- C2 counterexample: an output containing the case-sensitive substring
`"unauthorized"` (but not the source's actual marker
`'error: Unauthorized'`) with exit 0 and non-empty trimmed stdout is
classified `Live`, not `CredentialInvalid`, refuting the claimed
marker. -/
theorem claim_C2_counterexample :
    containsSubstr "unauthorized" "unauthorized" = true ∧
    (ExecResult.mk 0 "unauthorized" "").exitCode = 0 ∧
    jsTrim (ExecResult.mk 0 "unauthorized" "").stdout ≠ "" ∧
    classifyProbe (ExecResult.mk 0 "unauthorized" "") =
      ProbeOutcome.live "unauthorized" ∧
    classifyProbe (ExecResult.mk 0 "unauthorized" "") ≠
      ProbeOutcome.credentialInvalid := by
  decide

/-- C2 (amended): the marker is the case-sensitive substring
`'error: Unauthorized'` in combined stdout/stderr; with that marker the
classification is exactly as claimed: marker ⇒ CredentialInvalid
regardless of exit code, nonzero exit without marker ⇒ Offline, zero
exit with non-empty trimmed output ⇒ Live with the trimmed line. -/
theorem claim_C2_classification (r : ExecResult) :
    (hasUnauthorized r.stdout r.stderr = true →
      classifyProbe r = ProbeOutcome.credentialInvalid) ∧
    (hasUnauthorized r.stdout r.stderr = false → r.exitCode ≠ 0 →
      classifyProbe r = ProbeOutcome.offline) ∧
    (hasUnauthorized r.stdout r.stderr = false → r.exitCode = 0 →
      jsTrim r.stdout ≠ "" →
      classifyProbe r = ProbeOutcome.live (jsTrim r.stdout)) := by
  refine ⟨?_, ?_, ?_⟩
  · intro hm
    by_cases he : r.exitCode = 0 <;> simp [classifyProbe, he, hm]
  · intro hm he
    simp [classifyProbe, he, hm]
  · intro hm he hne
    simp [classifyProbe, he, hm, hne]

/-- Witness for the amended C2 on the three outcome shapes. -/
theorem claim_C2_classification_witness :
    classifyProbe sampleProbeUnauthorized = ProbeOutcome.credentialInvalid ∧
    classifyProbe sampleProbeOffline = ProbeOutcome.offline ∧
    classifyProbe sampleProbeLive = ProbeOutcome.live "https://example/stream" := by
  refine ⟨(claim_C2_classification sampleProbeUnauthorized).1 (by decide),
    (claim_C2_classification sampleProbeOffline).2.1 (by decide) (by decide),
    ?_⟩
  have h := (claim_C2_classification sampleProbeLive).2.2 (by decide) rfl (by decide)
  rw [h]
  decide

/-- C4: an exit file present at the top of a cycle (checked after
pruning, before the probe) ends the run with code 0 and no further
probe; pruning can never unlink the exit file (it only unlinks paths
under the log directory); and a signal arriving during a capture or the
sleep is only honored at the top of the following cycle, after the
capture has ended and the sleep has happened. -/
theorem claim_C4 (cfg : Config) (now : Nat) (entries : List DirEntry)
    (inp inp2 : CycleInput) (rest rest2 : List CycleInput) :
    (inp.exitFilePresent = true →
      runLoop cfg (inp :: rest) =
        ([Event.prune, Event.watchLog "Exit file detected, aborting."], some 0) ∧
      countEv isProbeEv (runLoop cfg (inp :: rest)).1 = 0) ∧
    (∀ p, p ∈ (cleanOldLogs (logDirOf cfg) now entries).2.1 →
      p ≠ exitFileOf cfg) ∧
    (inp.exitFilePresent = false → inp.probe.exitCode = 0 →
      hasUnauthorized inp.probe.stdout inp.probe.stderr = false →
      jsTrim inp.probe.stdout ≠ "" → inp2.exitFilePresent = true →
      runLoop cfg (inp :: inp2 :: rest2) =
        ((runCycle cfg inp).1 ++ Event.sleep ::
          [Event.prune, Event.watchLog "Exit file detected, aborting."], some 0) ∧
      Event.captureEnd inp.captureExit ∈ (runCycle cfg inp).1) := by
  refine ⟨?_, ?_, ?_⟩
  · intro h
    constructor
    · simp [runLoop, runCycle, h]
    · simp [runLoop, runCycle, h, countEv, isProbeEv]
  · intro p hp
    rw [cleanOldLogs_eq] at hp
    simp only [List.mem_map] at hp
    obtain ⟨e, _, rfl⟩ := hp
    exact logDir_path_ne_exitFile cfg e.name
  · intro h1 h2 h3 h4 h5
    have hcy : runCycle cfg inp =
        ([Event.prune, Event.probe,
            Event.watchLog (cfg.userName ++ " is online! Starting download...")]
          ++ notifyEvents cfg (cfg.userName ++ " is online! Starting download...")
          ++ [Event.captureStart (jsTrim inp.probe.stdout) (videoOutFile cfg inp.now),
              Event.captureEnd inp.captureExit,
              Event.watchLog (outcomeMsg inp.captureExit)],
          CycleResult.continued) := by
      simp [runCycle, h1, h2, h3, h4]
    have hcy2 : runCycle cfg inp2 =
        ([Event.prune, Event.watchLog "Exit file detected, aborting."],
          CycleResult.exited 0) := by
      simp [runCycle, h5]
    constructor
    · simp [runLoop, hcy, hcy2]
    · simp [hcy]

/-- Witness for C4: exit file present at the second cycle's top after a
live capture, and a concrete pruning pass. -/
theorem claim_C4_witness :
    (runLoop sampleCfg
        [{ exitFilePresent := true, probe := sampleProbeOffline,
           captureExit := 0, now := sampleTime }] =
      ([Event.prune, Event.watchLog "Exit file detected, aborting."], some 0) ∧
      countEv isProbeEv (runLoop sampleCfg
        [{ exitFilePresent := true, probe := sampleProbeOffline,
           captureExit := 0, now := sampleTime }]).1 = 0) ∧
    (∀ p, p ∈ (cleanOldLogs (logDirOf sampleCfg) 1000000000000
        [{ name := "chan_watch_20240101.log", mtimeMs := 0, statFails := false }]).2.1 →
      p ≠ exitFileOf sampleCfg) ∧
    (runLoop sampleCfg
        [{ exitFilePresent := false, probe := sampleProbeLive,
           captureExit := 0, now := sampleTime },
         { exitFilePresent := true, probe := sampleProbeOffline,
           captureExit := 0, now := sampleTime2 }] =
      ((runCycle sampleCfg
          { exitFilePresent := false, probe := sampleProbeLive,
            captureExit := 0, now := sampleTime }).1 ++ Event.sleep ::
        [Event.prune, Event.watchLog "Exit file detected, aborting."], some 0) ∧
      Event.captureEnd 0 ∈ (runCycle sampleCfg
          { exitFilePresent := false, probe := sampleProbeLive,
            captureExit := 0, now := sampleTime }).1) := by
  have h := claim_C4 sampleCfg 1000000000000
    [{ name := "chan_watch_20240101.log", mtimeMs := 0, statFails := false }]
    { exitFilePresent := true, probe := sampleProbeOffline,
      captureExit := 0, now := sampleTime }
    { exitFilePresent := true, probe := sampleProbeOffline,
      captureExit := 0, now := sampleTime2 } [] []
  have h' := claim_C4 sampleCfg 1000000000000
    [{ name := "chan_watch_20240101.log", mtimeMs := 0, statFails := false }]
    { exitFilePresent := false, probe := sampleProbeLive,
      captureExit := 0, now := sampleTime }
    { exitFilePresent := true, probe := sampleProbeOffline,
      captureExit := 0, now := sampleTime2 } [] []
  exact ⟨h.1 rfl, h.2.1, h'.2.2 rfl rfl (by decide) (by decide) rfl⟩

/-- C5: a pruning pass deletes exactly the files whose modification age
strictly exceeds the 3-day retention threshold, keeps every file at or
within it, keeps (with one warning) every file whose stat/delete fails,
and one file's failure never affects what happens to the other files:
the deletions on either side of a failing entry are exactly those of the
pass without it. -/
theorem claim_C5 (logDir : String) (now : Nat) (entries xs ys : List DirEntry)
    (bad : DirEntry) :
    (∀ e ∈ entries, e.statFails = false → now - e.mtimeMs > retentionMs →
      e ∉ (cleanOldLogs logDir now entries).1 ∧
      pathJoin logDir e.name ∈ (cleanOldLogs logDir now entries).2.1) ∧
    (∀ e ∈ entries, now - e.mtimeMs ≤ retentionMs →
      e ∈ (cleanOldLogs logDir now entries).1) ∧
    (∀ e ∈ entries, e.statFails = true →
      e ∈ (cleanOldLogs logDir now entries).1 ∧
      ("[WARN] Failed to stat or delete log file: " ++ pathJoin logDir e.name) ∈
        (cleanOldLogs logDir now entries).2.2) ∧
    (bad.statFails = true →
      (cleanOldLogs logDir now (xs ++ bad :: ys)).2.1 =
        (cleanOldLogs logDir now xs).2.1 ++ (cleanOldLogs logDir now ys).2.1) := by
  refine ⟨?_, ?_, ?_, ?_⟩
  · intro e he hs hm
    rw [cleanOldLogs_eq]
    constructor
    · simp [List.mem_filter, hs, hm]
    · simp only [List.mem_map]
      exact ⟨e, by simp [List.mem_filter, he, hs, hm], rfl⟩
  · intro e he hle
    rw [cleanOldLogs_eq]
    have hm : ¬(now - e.mtimeMs > retentionMs) := by omega
    simp [List.mem_filter, he, hm]
  · intro e he hs
    rw [cleanOldLogs_eq]
    constructor
    · simp [List.mem_filter, he, hs]
    · simp only [List.mem_map]
      exact ⟨e, by simp [List.mem_filter, he, hs], rfl⟩
  · intro hbad
    rw [cleanOldLogs_eq, cleanOldLogs_eq, cleanOldLogs_eq]
    simp [List.filter_append, List.filter_cons, hbad]

/-- Witness for C5: one stale file, one fresh file, one failing entry.
`retentionMs` is 259200000; age 259200001 ms is pruned, age exactly
at the threshold survives, the failing entry survives with a warning,
and the failing entry placed between two stale files leaves both
deletions intact. -/
theorem claim_C5_witness :
    ({ name := "old.log", mtimeMs := 0, statFails := false } : DirEntry) ∉
      (cleanOldLogs "/app/logs" 259200001
        [{ name := "old.log", mtimeMs := 0, statFails := false },
         { name := "fresh.log", mtimeMs := 1, statFails := false },
         { name := "cursed.log", mtimeMs := 0, statFails := true }]).1 ∧
    pathJoin "/app/logs" "old.log" ∈
      (cleanOldLogs "/app/logs" 259200001
        [{ name := "old.log", mtimeMs := 0, statFails := false },
         { name := "fresh.log", mtimeMs := 1, statFails := false },
         { name := "cursed.log", mtimeMs := 0, statFails := true }]).2.1 ∧
    ({ name := "fresh.log", mtimeMs := 1, statFails := false } : DirEntry) ∈
      (cleanOldLogs "/app/logs" 259200001
        [{ name := "old.log", mtimeMs := 0, statFails := false },
         { name := "fresh.log", mtimeMs := 1, statFails := false },
         { name := "cursed.log", mtimeMs := 0, statFails := true }]).1 ∧
    ({ name := "cursed.log", mtimeMs := 0, statFails := true } : DirEntry) ∈
      (cleanOldLogs "/app/logs" 259200001
        [{ name := "old.log", mtimeMs := 0, statFails := false },
         { name := "fresh.log", mtimeMs := 1, statFails := false },
         { name := "cursed.log", mtimeMs := 0, statFails := true }]).1 ∧
    (cleanOldLogs "/app/logs" 259200001
        ([{ name := "old.log", mtimeMs := 0, statFails := false }] ++
          { name := "cursed.log", mtimeMs := 0, statFails := true } ::
          [{ name := "old2.log", mtimeMs := 0, statFails := false }])).2.1 =
      (cleanOldLogs "/app/logs" 259200001
        [{ name := "old.log", mtimeMs := 0, statFails := false }]).2.1 ++
      (cleanOldLogs "/app/logs" 259200001
        [{ name := "old2.log", mtimeMs := 0, statFails := false }]).2.1 := by
  have h := claim_C5 "/app/logs" 259200001
    [{ name := "old.log", mtimeMs := 0, statFails := false },
     { name := "fresh.log", mtimeMs := 1, statFails := false },
     { name := "cursed.log", mtimeMs := 0, statFails := true }]
    [{ name := "old.log", mtimeMs := 0, statFails := false }]
    [{ name := "old2.log", mtimeMs := 0, statFails := false }]
    { name := "cursed.log", mtimeMs := 0, statFails := true }
  refine ⟨(h.1 { name := "old.log", mtimeMs := 0, statFails := false }
      (by decide) rfl (by decide)).1,
    (h.1 { name := "old.log", mtimeMs := 0, statFails := false }
      (by decide) rfl (by decide)).2,
    h.2.1 { name := "fresh.log", mtimeMs := 1, statFails := false }
      (by decide) (by decide),
    (h.2.2.1 { name := "cursed.log", mtimeMs := 0, statFails := true }
      (by decide) rfl).1,
    h.2.2.2 rfl⟩

theorem isPrefixOfL_append (pat xs ys : List Char)
    (h : isPrefixOfL pat xs = true) : isPrefixOfL pat (xs ++ ys) = true := by
  induction pat generalizing xs with
  | nil => simp [isPrefixOfL]
  | cons a as ih =>
    cases xs with
    | nil => simp [isPrefixOfL] at h
    | cons b bs =>
      simp only [isPrefixOfL, Bool.and_eq_true] at h
      simp only [List.cons_append, isPrefixOfL, Bool.and_eq_true]
      exact ⟨h.1, ih bs h.2⟩

theorem hasSubstrL_empty (l : List Char) : hasSubstrL [] l = true := by
  cases l <;> simp [hasSubstrL, isPrefixOfL]

/-- A string contains anything its prefix contains. -/
theorem containsSubstr_append_left (a b pat : String)
    (h : containsSubstr a pat = true) : containsSubstr (a ++ b) pat = true := by
  simp only [containsSubstr, String.data_append]
  revert h
  simp only [containsSubstr]
  induction a.data with
  | nil =>
    intro h
    cases pd : pat.data with
    | nil => exact hasSubstrL_empty _
    | cons p ps =>
      rw [pd] at h
      simp [hasSubstrL, isPrefixOfL] at h
  | cons x xs ih =>
    intro h
    simp only [hasSubstrL, Bool.or_eq_true] at h
    rcases h with h | h
    · simp only [List.cons_append, hasSubstrL, Bool.or_eq_true]
      exact Or.inl (isPrefixOfL_append _ _ _ h)
    · simp only [List.cons_append, hasSubstrL, Bool.or_eq_true]
      exact Or.inr (ih h)

/-- Every string contains itself. -/
theorem containsSubstr_self (s : String) : containsSubstr s s = true := by
  have h := hasSubstrL_self_append s.data []
  simpa [containsSubstr] using h

/-- C6 counterexample: at 2024-01-02 03:04:05 the capture output path is
`/videos/chan_20240102_0304_05.mp4` — `YYYYMMDD_HHMM_SS`, with an
underscore between minutes and seconds — not the claimed
`YYYYMMDD_HHMMSS` form `/videos/chan_20240102_030405.mp4`. -/
theorem claim_C6_counterexample :
    videoOutFile sampleCfgBare sampleTime = "/videos/chan_20240102_0304_05.mp4" ∧
    videoOutFile sampleCfgBare sampleTime ≠ "/videos/chan_20240102_030405.mp4" := by
  constructor
  · rfl
  · decide

/-- C6 (amended): each Live capture's output file is VIDEO_DIR joined
with `<channel>_<YYYYMMDD_HHMM_SS>.mp4` where the timestamp is the
capture's start instant (underscore between minutes and seconds); the
path contains the channel name and the timestamp, exactly one capture
starts per Live cycle, and chronologically later valid start instants
give strictly larger embedded timestamps. -/
theorem claim_C6_amended (cfg : Config) (inp inp2 : CycleInput)
    (hexit : inp.exitFilePresent = false)
    (hec : inp.probe.exitCode = 0)
    (hunauth : hasUnauthorized inp.probe.stdout inp.probe.stderr = false)
    (hne : jsTrim inp.probe.stdout ≠ "") :
    Event.captureStart (jsTrim inp.probe.stdout)
        (pathJoin cfg.videoDir
          (cfg.userName ++ "_" ++ getDateTime inp.now ++ ".mp4")) ∈
      (runCycle cfg inp).1 ∧
    countEv isCaptureStartEv (runCycle cfg inp).1 = 1 ∧
    containsSubstr (videoOutFile cfg inp.now) cfg.userName = true ∧
    containsSubstr (videoOutFile cfg inp.now) (getDateTime inp.now) = true ∧
    (validClock inp.now → validClock inp2.now → chronoLt inp.now inp2.now →
      dateTimeKey inp.now < dateTimeKey inp2.now) := by
  have hcy : runCycle cfg inp =
      ([Event.prune, Event.probe,
          Event.watchLog (cfg.userName ++ " is online! Starting download...")]
        ++ notifyEvents cfg (cfg.userName ++ " is online! Starting download...")
        ++ [Event.captureStart (jsTrim inp.probe.stdout) (videoOutFile cfg inp.now),
            Event.captureEnd inp.captureExit,
            Event.watchLog (outcomeMsg inp.captureExit)],
        CycleResult.continued) := by
    simp [runCycle, hexit, hec, hunauth, hne]
  refine ⟨?_, ?_, ?_, ?_, ?_⟩
  · rw [hcy]
    simp [videoOutFile]
  · rcases hw : cfg.webhookUrl with _ | w <;>
      simp [hcy, countEv, isCaptureStartEv, notifyEvents, hw]
  · show containsSubstr ((cfg.videoDir ++ "/") ++
      (((cfg.userName ++ "_") ++ getDateTime inp.now) ++ ".mp4")) cfg.userName = true
    refine containsSubstr_append_right _ _ _ ?_
    refine containsSubstr_append_left _ _ _ ?_
    refine containsSubstr_append_left _ _ _ ?_
    exact containsSubstr_append_left _ _ _ (containsSubstr_self _)
  · show containsSubstr ((cfg.videoDir ++ "/") ++
      (((cfg.userName ++ "_") ++ getDateTime inp.now) ++ ".mp4")) (getDateTime inp.now) = true
    refine containsSubstr_append_right _ _ _ ?_
    refine containsSubstr_append_left _ _ _ ?_
    exact containsSubstr_append_right _ _ _ (containsSubstr_self _)
  · intro h1 h2 h3
    exact dateTimeKey_strictMono _ _ h1 h2 h3

/-- Witness for the amended C6 at two concrete capture starts. -/
theorem claim_C6_amended_witness :
    Event.captureStart (jsTrim sampleProbeLive.stdout)
        (pathJoin sampleCfg.videoDir
          (sampleCfg.userName ++ "_" ++ getDateTime sampleTime ++ ".mp4")) ∈
      (runCycle sampleCfg
        { exitFilePresent := false, probe := sampleProbeLive,
          captureExit := 0, now := sampleTime }).1 ∧
    containsSubstr (videoOutFile sampleCfg sampleTime) sampleCfg.userName = true ∧
    dateTimeKey sampleTime < dateTimeKey sampleTime2 := by
  have h := claim_C6_amended sampleCfg
    { exitFilePresent := false, probe := sampleProbeLive,
      captureExit := 0, now := sampleTime }
    { exitFilePresent := false, probe := sampleProbeLive,
      captureExit := 0, now := sampleTime2 }
    rfl rfl (by decide) (by decide)
  exact ⟨h.1, h.2.2.1, h.2.2.2.2 (by unfold validClock; decide)
    (by unfold validClock; decide) (by unfold chronoLt; decide)⟩

theorem parentDir_pathJoin (a name : String)
    (h : name.data.contains '/' = false) :
    parentDir (pathJoin a name) = a := by
  have hnm : '/' ∉ name.data := by simpa using h
  have hmem : ∀ c ∈ name.data.reverse, (fun c => c != '/') c = true := by
    intro c hc
    rw [List.mem_reverse] at hc
    simp only [bne_iff_ne, ne_eq]
    intro hc2
    exact hnm (hc2 ▸ hc)
  have h1 : name.data.reverse.dropWhile (fun c => c != '/') = [] :=
    List.dropWhile_eq_nil_iff.mpr hmem
  unfold parentDir pathJoin
  have hd : ((a ++ "/") ++ name).data.reverse =
      name.data.reverse ++ '/' :: a.data.reverse := by
    simp [String.data_append]
  rw [hd, List.dropWhile_append, h1]
  simp [List.dropWhile_cons]

/-- C7 counterexample: the source has no `mkdir`, and an append into an
absent log directory fails with ENOENT — creating neither the directory
nor the file — refuting the claimed "creating the file/directory if
absent": over a filesystem with no directories, the watch-log append
whose target's parent is the log directory returns an error, not a
state with the path created. -/
theorem claim_C7_counterexample :
    appendFileSync { dirs := [], files := fun _ => none }
        (writeLog sampleCfg sampleTime LogType.watch "chan is offline.").filePath
        (writeLog sampleCfg sampleTime LogType.watch "chan is offline.").fileLine =
      Except.error "ENOENT" ∧
    parentDir (writeLog sampleCfg sampleTime LogType.watch "chan is offline.").filePath =
      logDirOf sampleCfg :=
  ⟨rfl, by decide⟩

/-- C7 (amended): every log append writes exactly one line of the form
`[INFO] <localized-timestamp> <credential-status>: <message>` (the
credential tag appears in every line) to a path determined only by
(channel, kind, current time) — watch logs bucket per day as
`<channel>_watch_<YYYYMMDD>.log`, download logs per minute as
`<channel>_download_<YYYYMMDD_HHMM>.log`, both directly under the log
directory — and mirrors the line to the console sink; the append
creates the file if absent and touches no other path, but only when the
log directory exists: the program never creates that directory, and an
append into an absent directory fails with ENOENT instead of creating
it. -/
theorem claim_C7_amended (cfg : Config) (d : DateTime) (ty : LogType) (msg : String)
    (fsys : FileSys) (q name : String) :
    (writeLog cfg d ty msg).fileLine =
      "[INFO] " ++ getLogTimestamp d ++ " " ++ tokenStatusOf cfg ++ ": " ++ msg ∧
    containsSubstr (writeLog cfg d ty msg).fileLine (tokenStatusOf cfg) = true ∧
    (writeLog cfg d LogType.watch msg).filePath =
      pathJoin (logDirOf cfg) (cfg.userName ++ "_watch_" ++ getDate d ++ ".log") ∧
    (writeLog cfg d LogType.download msg).filePath =
      pathJoin (logDirOf cfg)
        (cfg.userName ++ "_download_" ++ getDateTimeShort d ++ ".log") ∧
    (writeLog cfg d ty msg).consoleLine =
      "[INFO] " ++ getLogTimestamp d ++ ": " ++ tokenStatusOf cfg ++ ": " ++ msg ∧
    (name.data.contains '/' = false →
      parentDir (pathJoin (logDirOf cfg) name) = logDirOf cfg) ∧
    (fsys.dirs.contains (parentDir (writeLog cfg d ty msg).filePath) = true →
      ∃ fsys2,
        appendFileSync fsys (writeLog cfg d ty msg).filePath
            (writeLog cfg d ty msg).fileLine = Except.ok fsys2 ∧
        fsys2.files (writeLog cfg d ty msg).filePath =
          some ((fsys.files (writeLog cfg d ty msg).filePath).getD []
            ++ [(writeLog cfg d ty msg).fileLine]) ∧
        (q ≠ (writeLog cfg d ty msg).filePath →
          fsys2.files q = fsys.files q) ∧
        fsys2.dirs = fsys.dirs) ∧
    (fsys.dirs.contains (parentDir (writeLog cfg d ty msg).filePath) = false →
      appendFileSync fsys (writeLog cfg d ty msg).filePath
        (writeLog cfg d ty msg).fileLine = Except.error "ENOENT") := by
  refine ⟨rfl, ?_, rfl, rfl, rfl, ?_, ?_, ?_⟩
  · show containsSubstr
      ((((("[INFO] " ++ getLogTimestamp d) ++ " ") ++ tokenStatusOf cfg)
        ++ ": ") ++ msg) (tokenStatusOf cfg) = true
    refine containsSubstr_append_left _ _ _ ?_
    refine containsSubstr_append_left _ _ _ ?_
    exact containsSubstr_append_right _ _ _ (containsSubstr_self _)
  · intro hname
    exact parentDir_pathJoin _ _ hname
  · intro hdir
    refine ⟨{ dirs := fsys.dirs
              files := fun q =>
                if q = (writeLog cfg d ty msg).filePath
                then some ((fsys.files (writeLog cfg d ty msg).filePath).getD []
                  ++ [(writeLog cfg d ty msg).fileLine])
                else fsys.files q }, ?_, ?_, ?_, rfl⟩
    · unfold appendFileSync
      rw [if_pos hdir]
    · show (if (writeLog cfg d ty msg).filePath = (writeLog cfg d ty msg).filePath
        then some ((fsys.files (writeLog cfg d ty msg).filePath).getD []
          ++ [(writeLog cfg d ty msg).fileLine])
        else fsys.files (writeLog cfg d ty msg).filePath) =
        some ((fsys.files (writeLog cfg d ty msg).filePath).getD []
          ++ [(writeLog cfg d ty msg).fileLine])
      rw [if_pos rfl]
    · intro hq
      show (if q = (writeLog cfg d ty msg).filePath
        then some ((fsys.files (writeLog cfg d ty msg).filePath).getD []
          ++ [(writeLog cfg d ty msg).fileLine])
        else fsys.files q) = fsys.files q
      rw [if_neg hq]
  · intro hdir
    have h2 : ¬(fsys.dirs.contains
        (parentDir (writeLog cfg d ty msg).filePath) = true) := by
      rw [hdir]
      exact Bool.false_ne_true
    unfold appendFileSync
    rw [if_neg h2]

/-- Witness for the amended C7: a concrete watch append over an empty
file store whose directory list holds the log directory. -/
theorem claim_C7_amended_witness :
    parentDir (pathJoin (logDirOf sampleCfg) "chan_watch_20240102.log") =
      logDirOf sampleCfg ∧
    (∃ fsys2,
      appendFileSync { dirs := ["/app/logs"], files := fun _ => none }
          (writeLog sampleCfg sampleTime LogType.watch "chan is offline.").filePath
          (writeLog sampleCfg sampleTime LogType.watch "chan is offline.").fileLine =
        Except.ok fsys2 ∧
      fsys2.files (writeLog sampleCfg sampleTime LogType.watch "chan is offline.").filePath =
        some ((((fun _ => none : String → Option (List String))
            (writeLog sampleCfg sampleTime LogType.watch "chan is offline.").filePath).getD [])
          ++ [(writeLog sampleCfg sampleTime LogType.watch "chan is offline.").fileLine]) ∧
      ("/app/logs/other.log" ≠
          (writeLog sampleCfg sampleTime LogType.watch "chan is offline.").filePath →
        fsys2.files "/app/logs/other.log" =
          (fun _ => none : String → Option (List String)) "/app/logs/other.log") ∧
      fsys2.dirs = ["/app/logs"]) := by
  have h := claim_C7_amended sampleCfg sampleTime LogType.watch "chan is offline."
    { dirs := ["/app/logs"], files := fun _ => none }
    "/app/logs/other.log" "chan_watch_20240102.log"
  exact ⟨h.2.2.2.2.2.1 (by decide), h.2.2.2.2.2.2.1 (by decide)⟩

/-- C9: at startup, a missing channel argument yields the usage message
on the error stream and exit code 1; a missing streamlink or ffmpeg
yields exit code 1 before any loop event; an absent credential only
yields a warning and startup proceeds into the loop. -/
theorem claim_C9 (env : StartupEnv) (cfg : Config) (inputs : List CycleInput) :
    (env.argChannel = none →
      startup env = StartupResult.exitWith 1 usageMsg ∧
      runProgram env cfg inputs = ([], some 1)) ∧
    (env.argChannel ≠ none → env.streamlinkInstalled = false →
      runProgram env cfg inputs = ([], some 1)) ∧
    (env.argChannel ≠ none → env.streamlinkInstalled = true →
      env.ffmpegInstalled = false →
      runProgram env cfg inputs = ([], some 1)) ∧
    (env.argChannel ≠ none → env.streamlinkInstalled = true →
      env.ffmpegInstalled = true → env.authToken = none →
      startup env = StartupResult.proceed [tokenWarnMsg] ∧
      runProgram env cfg inputs = runLoop cfg inputs) := by
  refine ⟨?_, ?_, ?_, ?_⟩
  · intro h
    simp [startup, runProgram, h]
  · intro h1 h2
    rcases ha : env.argChannel with _ | ch
    · exact absurd ha h1
    · simp [startup, runProgram, ha, h2]
  · intro h1 h2 h3
    rcases ha : env.argChannel with _ | ch
    · exact absurd ha h1
    · simp [startup, runProgram, ha, h2, h3]
  · intro h1 h2 h3 h4
    rcases ha : env.argChannel with _ | ch
    · exact absurd ha h1
    · simp [startup, runProgram, ha, h2, h3, h4]

/-- Witness for C9 across the four startup shapes. -/
theorem claim_C9_witness :
    startup { argChannel := none, streamlinkInstalled := true,
              ffmpegInstalled := true, authToken := none } =
      StartupResult.exitWith 1 usageMsg ∧
    runProgram { argChannel := some "chan", streamlinkInstalled := false,
                 ffmpegInstalled := true, authToken := some "tok" } sampleCfg [] =
      ([], some 1) ∧
    runProgram { argChannel := some "chan", streamlinkInstalled := true,
                 ffmpegInstalled := false, authToken := some "tok" } sampleCfg [] =
      ([], some 1) ∧
    startup { argChannel := some "chan", streamlinkInstalled := true,
              ffmpegInstalled := true, authToken := none } =
      StartupResult.proceed [tokenWarnMsg] := by
  refine ⟨?_, ?_, ?_, ?_⟩
  · exact ((claim_C9 { argChannel := none, streamlinkInstalled := true,
                       ffmpegInstalled := true, authToken := none }
      sampleCfg []).1 rfl).1
  · exact ((claim_C9 { argChannel := some "chan", streamlinkInstalled := false,
                       ffmpegInstalled := true, authToken := some "tok" }
      sampleCfg []).2.1) (by decide) rfl
  · exact ((claim_C9 { argChannel := some "chan", streamlinkInstalled := true,
                       ffmpegInstalled := false, authToken := some "tok" }
      sampleCfg []).2.2.1) (by decide) rfl rfl
  · exact (((claim_C9 { argChannel := some "chan", streamlinkInstalled := true,
                        ffmpegInstalled := true, authToken := none }
      sampleCfg []).2.2.2) (by decide) rfl rfl rfl).1
